import Mathlib

/-!
Shallow embedding of the `bal` layer-4 TCP load balancer core
(src/backend_pool.rs, src/load_balancer.rs, src/protection.rs,
src/state.rs, src/config.rs, src/proxy.rs) and proofs about it.

Machine integers are modelled as `Nat` with explicit reduction modulo
`2^32` (Rust `u32`/`AtomicU32`, wrapping `fetch_add`) or `2^64`
(`usize`/`AtomicUsize`) at the operations where the source performs
wrapping arithmetic.  Wall-clock time is threaded as an explicit `now`
parameter (milliseconds).  Concurrency is collapsed to sequential state
passing: every atomic read-modify-write in the source becomes one pure
state transition here.
-/

/-- Modulus of a Rust `u32` counter (`AtomicU32::fetch_add` wraps). -/
def U32 : Nat := 2 ^ 32

/-- Modulus of a Rust `usize` counter (`AtomicUsize::fetch_add` wraps); 64-bit target. -/
def USIZE : Nat := 2 ^ 64

/-- Backend identity, from `BackendConfig` in src/config.rs (`host: String`, `port: u16`). -/
structure BackendConfig where
  host : String
  port : Nat
deriving DecidableEq

/-- Per-backend runtime state, from `BackendState` in src/backend_pool.rs.
The atomic fields (`AtomicBool`, `AtomicUsize`, `AtomicU32`) are modelled as
plain fields of an immutable record; each source method becomes a function
from state to state.
The field `cooldown_until_ms` is modelled from the spec: src/backend_pool.rs
does not declare it, but src/proxy.rs calls `cooldown_until_ms()` and
`is_in_cooldown()` on `BackendState`, and the spec (§3) lists
`cooldown_until_ms: wall-clock deadline`. -/
structure BackendState where
  config : BackendConfig
  healthy : Bool
  active_connections : Nat
  consecutive_failures : Nat
  consecutive_successes : Nat
  cooldown_until_ms : Nat
deriving DecidableEq

/-- `BackendState::new`: initially healthy, all counters zero.
`cooldown_until_ms := 0` is modelled from the spec: a fresh backend is not
in cooldown (the deadline is not in the future). -/
def BackendState.new (config : BackendConfig) : BackendState :=
  { config := config
    healthy := true
    active_connections := 0
    consecutive_failures := 0
    consecutive_successes := 0
    cooldown_until_ms := 0 }

/-- `BackendState::is_healthy`. -/
def BackendState.is_healthy (b : BackendState) : Bool :=
  b.healthy

/-- `BackendState::set_healthy`. -/
def BackendState.set_healthy (b : BackendState) (healthy : Bool) : BackendState :=
  { b with healthy := healthy }

/-- Modelled from the spec: `is_in_cooldown()` is absent from
src/backend_pool.rs (src/proxy.rs is its caller); the spec (§4.1) states
it is true iff `now < cooldown_until_ms`. -/
def BackendState.is_in_cooldown (b : BackendState) (now : Nat) : Bool :=
  now < b.cooldown_until_ms

/-- `BackendState::increment_failures`: wrapping `fetch_add(1)` on the failure
counter, then store 0 into the success counter. -/
def BackendState.increment_failures (b : BackendState) : BackendState :=
  { b with
    consecutive_failures := (b.consecutive_failures + 1) % U32
    consecutive_successes := 0 }

/-- `BackendState::increment_successes`: wrapping `fetch_add(1)` on the success
counter, then store 0 into the failure counter. -/
def BackendState.increment_successes (b : BackendState) : BackendState :=
  { b with
    consecutive_successes := (b.consecutive_successes + 1) % U32
    consecutive_failures := 0 }

/-- `BackendState::mark_failure`: `failures = fetch_add(1) + 1` (wrapping),
reset successes to 0; if `failures >= max_failures`, swap `healthy` to false. -/
def BackendState.mark_failure (b : BackendState) (max_failures : Nat) : BackendState :=
  let failures := (b.consecutive_failures + 1) % U32
  let b := { b with
    consecutive_failures := failures
    consecutive_successes := 0 }
  if failures ≥ max_failures then { b with healthy := false } else b

/-- `BackendState::mark_success`: `successes = fetch_add(1) + 1` (wrapping),
reset failures to 0; if `successes >= min_successes && !is_healthy()`, store
`healthy := true`. -/
def BackendState.mark_success (b : BackendState) (min_successes : Nat) : BackendState :=
  let successes := (b.consecutive_successes + 1) % U32
  let b := { b with
    consecutive_successes := successes
    consecutive_failures := 0 }
  if successes ≥ min_successes ∧ b.is_healthy = false then
    { b with healthy := true }
  else b

/-- The four counter operations of src/backend_pool.rs that touch the
consecutive failure/success counters (claim C5 quantifies over sequences
of these). -/
inductive CounterOp where
  | incFailures : CounterOp
  | incSuccesses : CounterOp
  | markFailure (max_failures : Nat) : CounterOp
  | markSuccess (min_successes : Nat) : CounterOp
deriving DecidableEq

/-- Apply one counter operation to a backend state. -/
def applyCounterOp (b : BackendState) : CounterOp → BackendState
  | .incFailures => b.increment_failures
  | .incSuccesses => b.increment_successes
  | .markFailure t => b.mark_failure t
  | .markSuccess s => b.mark_success s

/-- Each counter operation zeroes one of the two counters. -/
lemma applyCounterOp_mutual_reset (b : BackendState) (op : CounterOp) :
    (applyCounterOp b op).consecutive_failures = 0 ∨
    (applyCounterOp b op).consecutive_successes = 0 := by
  cases op with
  | incFailures => right; rfl
  | incSuccesses => left; rfl
  | markFailure t =>
      right
      simp only [applyCounterOp, BackendState.mark_failure]
      split <;> rfl
  | markSuccess s =>
      left
      simp only [applyCounterOp, BackendState.mark_success]
      split <;> rfl

/-- C1: starting from a freshly created backend, with `fail_threshold = 3`
three `mark_failure(3)` calls leave `is_healthy()` true after the first two
and false after the third; from that unhealthy state, with
`success_threshold = 3`, one or two `mark_success(3)` calls leave it
unhealthy and the third flips it back to healthy. -/
theorem mark_failure_mark_success_thresholds :
    BackendState.is_healthy
      (BackendState.mark_failure
        (BackendState.new { host := "127.0.0.1", port := 8080 }) 3) = true ∧
    BackendState.is_healthy
      ((BackendState.new { host := "127.0.0.1", port := 8080 }).mark_failure 3
        |>.mark_failure 3) = true ∧
    BackendState.is_healthy
      ((BackendState.new { host := "127.0.0.1", port := 8080 }).mark_failure 3
        |>.mark_failure 3 |>.mark_failure 3) = false ∧
    BackendState.is_healthy
      ((BackendState.new { host := "127.0.0.1", port := 8080 }).mark_failure 3
        |>.mark_failure 3 |>.mark_failure 3 |>.mark_success 3) = false ∧
    BackendState.is_healthy
      ((BackendState.new { host := "127.0.0.1", port := 8080 }).mark_failure 3
        |>.mark_failure 3 |>.mark_failure 3 |>.mark_success 3
        |>.mark_success 3) = false ∧
    BackendState.is_healthy
      ((BackendState.new { host := "127.0.0.1", port := 8080 }).mark_failure 3
        |>.mark_failure 3 |>.mark_failure 3 |>.mark_success 3
        |>.mark_success 3 |>.mark_success 3) = true := by
  decide

/-- Folding counter operations preserves the mutual-reset invariant. -/
lemma counterInv_foldl (ops : List CounterOp) :
    ∀ b : BackendState, (b.consecutive_failures = 0 ∨ b.consecutive_successes = 0) →
    ((ops.foldl applyCounterOp b).consecutive_failures = 0 ∨
     (ops.foldl applyCounterOp b).consecutive_successes = 0) := by
  induction ops with
  | nil => intro b h; exact h
  | cons op rest ih =>
      intro b _
      rw [List.foldl_cons]
      exact ih (applyCounterOp b op) (applyCounterOp_mutual_reset b op)

/-- C5: after any sequence of the counter operations applied to a freshly
created backend, at least one of the two consecutive counters is zero:
every failure-recording operation zeroes the success counter and every
success-recording operation zeroes the failure counter. -/
theorem counter_ops_mutually_resetting (config : BackendConfig) (ops : List CounterOp) :
    (ops.foldl applyCounterOp (BackendState.new config)).consecutive_failures = 0 ∨
    (ops.foldl applyCounterOp (BackendState.new config)).consecutive_successes = 0 :=
  counterInv_foldl ops (BackendState.new config) (Or.inl rfl)

/-- `mark_failure` always increments the stored failure counter by one
(mod `2^32`), independent of the threshold and of the health flag. -/
lemma mark_failure_consecutive_failures (b : BackendState) (t : Nat) :
    (b.mark_failure t).consecutive_failures = (b.consecutive_failures + 1) % U32 := by
  simp only [BackendState.mark_failure]
  split <;> rfl

/-- C8 counterexample: with `fail_threshold = 1`, two `mark_failure(1)` calls
on a fresh backend leave `consecutive_failures = 2 > 1`: the stored counter
exceeds the threshold, so it does not saturate there. -/
theorem mark_failure_exceeds_threshold :
    (((BackendState.new { host := "127.0.0.1", port := 8080 }).mark_failure 1).mark_failure
        1).consecutive_failures = 2 ∧ 1 < 2 := by
  decide

/-- C8 amended: after `n` `mark_failure(t)` calls on a fresh backend the
stored `consecutive_failures` counter equals `n % 2^32` — it counts every
call (wrapping at the `u32` modulus) and exceeds the threshold `t` once
`n > t` (for `n < 2^32`); it does not saturate at the threshold. -/
theorem mark_failure_counts_calls (config : BackendConfig) (t n : Nat) :
    ((fun b => BackendState.mark_failure b t)^[n]
        (BackendState.new config)).consecutive_failures = n % U32 := by
  induction n with
  | zero =>
      simp [BackendState.new, Nat.zero_mod]
  | succ k ih =>
      rw [Function.iterate_succ_apply', mark_failure_consecutive_failures, ih]
      conv_rhs => rw [Nat.add_mod]
      norm_num [U32]

/-- C9 counterexample: on a freshly created (healthy) backend, two
consecutive `mark_success(1)` calls do not leave the same observable state
as one call: the public `consecutive_successes()` getter reads 2 after two
calls but 1 after one call. -/
theorem mark_success_not_idempotent_on_counter :
    let b0 := BackendState.new { host := "127.0.0.1", port := 8080 }
    b0.is_healthy = true ∧
    (b0.mark_success 1).consecutive_successes = 1 ∧
    ((b0.mark_success 1).mark_success 1).consecutive_successes = 2 ∧
    (b0.mark_success 1).mark_success 1 ≠ b0.mark_success 1 := by
  decide

/-- C9 amended: on a backend whose `healthy` flag is true, `mark_success(1)`
is idempotent for the health status and the failure counter — after one or
two consecutive calls `is_healthy()` is still true and
`consecutive_failures` is 0 — but each call increments the observable
`consecutive_successes` counter by one (mod `2^32`). -/
theorem mark_success_idempotent_on_health (b : BackendState)
    (h : b.is_healthy = true) :
    (b.mark_success 1).is_healthy = true ∧
    (b.mark_success 1).consecutive_failures = 0 ∧
    ((b.mark_success 1).mark_success 1).is_healthy = true ∧
    ((b.mark_success 1).mark_success 1).consecutive_failures = 0 ∧
    (b.mark_success 1).consecutive_successes = (b.consecutive_successes + 1) % U32 ∧
    ((b.mark_success 1).mark_success 1).consecutive_successes =
      ((b.mark_success 1).consecutive_successes + 1) % U32 := by
  simp only [BackendState.mark_success, BackendState.is_healthy] at *
  simp [h]

/-- Witness for C9 amended at a concrete healthy backend. -/
theorem mark_success_idempotent_on_health_witness :
    let b0 := BackendState.new { host := "10.0.0.1", port := 9000 }
    (b0.mark_success 1).is_healthy = true ∧
    (b0.mark_success 1).consecutive_failures = 0 ∧
    ((b0.mark_success 1).mark_success 1).is_healthy = true ∧
    ((b0.mark_success 1).mark_success 1).consecutive_failures = 0 ∧
    (b0.mark_success 1).consecutive_successes = (b0.consecutive_successes + 1) % U32 ∧
    ((b0.mark_success 1).mark_success 1).consecutive_successes =
      ((b0.mark_success 1).consecutive_successes + 1) % U32 :=
  mark_success_idempotent_on_health (BackendState.new { host := "10.0.0.1", port := 9000 })
    (by decide)

/-- Backend pool, from `BackendPool` in src/backend_pool.rs: an ordered list
of backend states. -/
structure BackendPool where
  backends : List BackendState
deriving DecidableEq

/-- `BackendPool::healthy_backends`: filter the pool by `is_healthy()` (and
nothing else — src/backend_pool.rs does not consult any cooldown state here). -/
def BackendPool.healthy_backends (p : BackendPool) : List BackendState :=
  p.backends.filter fun b => b.is_healthy

/-- `BackendPool::healthy_count`. -/
def BackendPool.healthy_count (p : BackendPool) : Nat :=
  (p.backends.filter fun b => b.is_healthy).length

/-- `BackendPool::total_count`. -/
def BackendPool.total_count (p : BackendPool) : Nat :=
  p.backends.length

/-- `BalanceMethod` from src/config.rs. -/
inductive BalanceMethod where
  | RoundRobin : BalanceMethod
  | LeastConnections : BalanceMethod
deriving DecidableEq

/-- `LoadBalancer::select_round_robin` from src/load_balancer.rs:
`index = rr_index.fetch_add(1)` (wrapping at the `usize` modulus), then the
backend at `index % backends.len()` is returned.  The pair is
(selected backend, new cursor value).  The source is only called with a
non-empty list, where `get?` always yields `some`. -/
def select_round_robin (backends : List BackendState) (rr_index : Nat) :
    Option BackendState × Nat :=
  (backends.get? (rr_index % backends.length), (rr_index + 1) % USIZE)

/-- `LoadBalancer::select_least_connections` from src/load_balancer.rs:
`min_by_key` over `active_connections()`; on ties the first element wins,
which the fold below realises by replacing the accumulator only on a
strictly smaller key. -/
def select_least_connections (backends : List BackendState) : Option BackendState :=
  backends.foldl
    (fun acc b =>
      match acc with
      | none => some b
      | some m =>
          if b.active_connections < m.active_connections then some b else some m)
    none

/-- `LoadBalancer::select_backend` from src/load_balancer.rs: compute the
healthy subset; if it is empty return `none` (cursor untouched), otherwise
dispatch on the method.  State is the round-robin cursor. -/
def select_backend (method : BalanceMethod) (pool : BackendPool) (rr_index : Nat) :
    Option BackendState × Nat :=
  let healthy := pool.healthy_backends
  if healthy.isEmpty then (none, rr_index)
  else
    match method with
    | .RoundRobin => select_round_robin healthy rr_index
    | .LeastConnections => (select_least_connections healthy, rr_index)

/-- Run `n` successive round-robin `select_backend` calls, threading the
cursor, and collect the selected backends. -/
def rrSelections (pool : BackendPool) : Nat → Nat → List (Option BackendState)
  | 0, _ => []
  | Nat.succ k, rr_index =>
      let r := select_backend .RoundRobin pool rr_index
      r.1 :: rrSelections pool k r.2

/-- The three-backend, all-healthy pool of the spec scenario
`[A:9000, B:9100, C:9200]`. -/
def poolABC : BackendPool :=
  { backends :=
      [BackendState.new { host := "A", port := 9000 },
       BackendState.new { host := "B", port := 9100 },
       BackendState.new { host := "C", port := 9200 }] }

/-- C2: under round-robin, whenever the healthy subset is non-empty a
`select_backend` call returns the healthy backend at position
`rr_index % n` and advances the cursor by one (wrapping at the `usize`
modulus); six successive selections from cursor 0 over the all-healthy pool
`[A:9000, B:9100, C:9200]` yield A, B, C, A, B, C; and with an empty healthy
subset `select_backend` returns no backend. -/
theorem select_backend_round_robin_spec :
    (∀ (pool : BackendPool) (rr_index : Nat), pool.healthy_backends ≠ [] →
      ∃ h : rr_index % pool.healthy_backends.length < pool.healthy_backends.length,
        (select_backend .RoundRobin pool rr_index).1 =
          some (pool.healthy_backends.get ⟨rr_index % pool.healthy_backends.length, h⟩) ∧
        (select_backend .RoundRobin pool rr_index).2 = (rr_index + 1) % USIZE) ∧
    (rrSelections poolABC 6 0).map (Option.map fun b => b.config.port) =
      [some 9000, some 9100, some 9200, some 9000, some 9100, some 9200] ∧
    (∀ (pool : BackendPool) (rr_index : Nat), pool.healthy_backends = [] →
      select_backend .RoundRobin pool rr_index = (none, rr_index)) := by
  refine ⟨?_, by decide, ?_⟩
  · intro pool rr_index hne
    have hlen : 0 < pool.healthy_backends.length := List.length_pos.mpr hne
    have hlt : rr_index % pool.healthy_backends.length < pool.healthy_backends.length :=
      Nat.mod_lt _ hlen
    have hempty : pool.healthy_backends.isEmpty = false := by
      simp [List.isEmpty_iff, hne]
    refine ⟨hlt, ?_, ?_⟩
    · simp [select_backend, select_round_robin, hempty, List.get?_eq_get hlt]
    · simp [select_backend, select_round_robin, hempty]
  · intro pool rr_index h
    simp [select_backend, h]

/-- Witness for the universally quantified part of C2: on the concrete pool
`[A:9000, B:9100, C:9200]` with cursor 5, round-robin selection picks the
backend at index `5 % 3 = 2` and advances the cursor to 6. -/
theorem select_backend_round_robin_spec_witness :
    ∃ h : 5 % poolABC.healthy_backends.length < poolABC.healthy_backends.length,
      (select_backend .RoundRobin poolABC 5).1 =
        some (poolABC.healthy_backends.get ⟨5 % poolABC.healthy_backends.length, h⟩) ∧
      (select_backend .RoundRobin poolABC 5).2 = (5 + 1) % USIZE :=
  select_backend_round_robin_spec.1 poolABC 5 (by decide)

/-- The healthy sweep of `connect_with_retry` in src/proxy.rs
(lines 213-300), reduced to its selection control flow: for `attempt` in
`1..=healthy.len()` the balancer yields the backend at the next cursor
position, and any selected backend with `is_in_cooldown()` is skipped
(`continue`) — only the others are connect-attempted.  The list below is
the sequence of backends the loop would hand to `TcpStream::connect`
(its maximal form, i.e. when no connect attempt succeeds early; the
backends attempted in any real run form a prefix of it). -/
def healthySweepAttempts (pool : BackendPool) (rr_index now : Nat) : List BackendState :=
  let healthy := pool.healthy_backends
  (List.range healthy.length).filterMap fun attempt =>
    match healthy.get? ((rr_index + attempt) % healthy.length) with
    | none => none
    | some b => if b.is_in_cooldown now then none else some b

/-- A concrete backend that is marked healthy but sits inside its cooldown
window at `now = 50` (deadline 100). -/
def backendInCooldown : BackendState :=
  { config := { host := "127.0.0.1", port := 9000 }
    healthy := true
    active_connections := 0
    consecutive_failures := 0
    consecutive_successes := 0
    cooldown_until_ms := 100 }

/-- C3 counterexample: a backend that is healthy and currently within its
cooldown deadline is NOT excluded by `healthy_backends()` — the pool's
healthy-subset view filters by the health flag alone, so the backend is a
member of `healthy_backends()` even while `is_in_cooldown` holds. -/
theorem healthy_backends_keeps_cooldown_backend :
    backendInCooldown.is_healthy = true ∧
    backendInCooldown.is_in_cooldown 50 = true ∧
    backendInCooldown ∈ (BackendPool.mk [backendInCooldown]).healthy_backends := by
  decide

/-- C3 amended: `healthy_backends()` contains exactly the backends whose
`healthy` flag is true, regardless of cooldown; the cooldown exclusion
happens afterwards, in the healthy sweep of `connect_with_retry`
(src/proxy.rs), which skips every selected backend with
`now < cooldown_until_ms`, so no connect attempt is made to a backend in
cooldown. -/
theorem healthy_backends_and_cooldown_skip :
    (∀ (pool : BackendPool) (b : BackendState),
      b ∈ pool.healthy_backends ↔ b ∈ pool.backends ∧ b.is_healthy = true) ∧
    (∀ (pool : BackendPool) (rr_index now : Nat) (b : BackendState),
      b ∈ healthySweepAttempts pool rr_index now → b.is_in_cooldown now = false) := by
  constructor
  · intro pool b
    simp [BackendPool.healthy_backends, List.mem_filter]
  · intro pool rr_index now b hb
    simp only [healthySweepAttempts, List.mem_filterMap, List.mem_range] at hb
    obtain ⟨i, _, h2⟩ := hb
    revert h2
    cases hget :
        pool.healthy_backends.get? ((rr_index + i) % pool.healthy_backends.length) with
    | none => simp
    | some c =>
        simp only []
        split
        · simp
        · rename_i hcool
          intro heq
          cases heq
          simpa using hcool

/-- Witness for the sweep part of C3 amended: backend A of the concrete pool
is attempted by the healthy sweep at `now = 0` and is indeed not in
cooldown there. -/
theorem healthy_backends_and_cooldown_skip_witness :
    (BackendState.new { host := "A", port := 9000 }).is_in_cooldown 0 = false :=
  healthy_backends_and_cooldown_skip.2 poolABC 0 0
    (BackendState.new { host := "A", port := 9000 }) (by decide)

/-- Left-to-right accumulator form of the `min_by_key` fold of
`select_least_connections`: keep the current minimum, replace it only on a
strictly smaller connection count. -/
def leastAux (m : BackendState) : List BackendState → BackendState
  | [] => m
  | b :: rest =>
      leastAux (if b.active_connections < m.active_connections then b else m) rest

/-- The fold inside `select_least_connections`, started from `some m`,
computes `leastAux m`. -/
lemma select_least_connections_foldl (l : List BackendState) :
    ∀ m : BackendState,
      l.foldl
        (fun acc b =>
          match acc with
          | none => some b
          | some m =>
              if b.active_connections < m.active_connections then some b else some m)
        (some m) = some (leastAux m l) := by
  induction l with
  | nil => intro m; rfl
  | cons b rest ih =>
      intro m
      rw [List.foldl_cons, leastAux]
      by_cases h : b.active_connections < m.active_connections
      · simp only [if_pos h]
        exact ih b
      · simp only [if_neg h]
        exact ih m

/-- `leastAux m l` is the first element of `m :: l` attaining the minimal
`active_connections` count: the list splits around it, it is a lower bound
for every element, and every element strictly before it is strictly larger. -/
lemma leastAux_spec (l : List BackendState) :
    ∀ m : BackendState,
      ∃ pre post, m :: l = pre ++ leastAux m l :: post ∧
        (∀ c ∈ m :: l, (leastAux m l).active_connections ≤ c.active_connections) ∧
        (∀ c ∈ pre, (leastAux m l).active_connections < c.active_connections) := by
  induction l with
  | nil =>
      intro m
      refine ⟨[], [], rfl, ?_, by simp⟩
      intro c hc
      rw [List.mem_singleton] at hc
      subst hc
      exact Nat.le_refl _
  | cons b rest ih =>
      intro m
      rw [leastAux]
      by_cases h : b.active_connections < m.active_connections
      · simp only [if_pos h]
        obtain ⟨pre, post, hsplit, hmin, hstrict⟩ := ih b
        have hrb : (leastAux b rest).active_connections ≤ b.active_connections :=
          hmin b (List.mem_cons_self b rest)
        refine ⟨m :: pre, post, ?_, ?_, ?_⟩
        · rw [List.cons_append, ← hsplit]
        · intro c hc
          rcases List.mem_cons.mp hc with rfl | hc'
          · exact Nat.le_of_lt (Nat.lt_of_le_of_lt hrb h)
          · exact hmin c hc'
        · intro c hc
          rcases List.mem_cons.mp hc with rfl | hc'
          · exact Nat.lt_of_le_of_lt hrb h
          · exact hstrict c hc'
      · simp only [if_neg h]
        have hmb : m.active_connections ≤ b.active_connections := Nat.le_of_not_lt h
        obtain ⟨pre, post, hsplit, hmin, hstrict⟩ := ih m
        cases pre with
        | nil =>
            simp only [List.nil_append, List.cons.injEq] at hsplit
            obtain ⟨h1, h2⟩ := hsplit
            refine ⟨[], b :: rest, ?_, ?_, by simp⟩
            · rw [List.nil_append, ← h1]
            · intro c hc
              rcases List.mem_cons.mp hc with rfl | hc'
              · exact hmin c (List.mem_cons_self c rest)
              · rcases List.mem_cons.mp hc' with rfl | hc''
                · rw [← h1]
                  exact hmb
                · exact hmin c (List.mem_cons_of_mem m hc'')
        | cons p pre2 =>
            simp only [List.cons_append, List.cons.injEq] at hsplit
            obtain ⟨h1, h2⟩ := hsplit
            have hrm : (leastAux m rest).active_connections < m.active_connections := by
              have := hstrict p (List.mem_cons_self p pre2)
              rwa [← h1] at this
            refine ⟨m :: b :: pre2, post, ?_, ?_, ?_⟩
            · rw [List.cons_append, List.cons_append, ← h2]
            · intro c hc
              rcases List.mem_cons.mp hc with rfl | hc'
              · exact Nat.le_of_lt hrm
              · rcases List.mem_cons.mp hc' with rfl | hc''
                · exact Nat.le_of_lt (Nat.lt_of_lt_of_le hrm hmb)
                · exact hmin c (List.mem_cons_of_mem m hc'')
            · intro c hc
              rcases List.mem_cons.mp hc with rfl | hc'
              · exact hrm
              · rcases List.mem_cons.mp hc' with rfl | hc''
                · exact Nat.lt_of_lt_of_le hrm hmb
                · exact hstrict c (List.mem_cons_of_mem p hc'')

/-- C10: whenever the healthy subset is non-empty, `select_backend` under
`LeastConnections` returns `some` backend of that subset whose
`active_connections` count is less than or equal to that of every other
healthy backend, and that backend is the earliest such one in pool order
(every healthy backend before it has strictly more connections); it never
returns `none` for a non-empty healthy subset. -/
theorem select_least_connections_picks_min (pool : BackendPool) (rr_index : Nat)
    (hne : pool.healthy_backends ≠ []) :
    ∃ b pre post,
      (select_backend .LeastConnections pool rr_index).1 = some b ∧
      pool.healthy_backends = pre ++ b :: post ∧
      (∀ c ∈ pool.healthy_backends, b.active_connections ≤ c.active_connections) ∧
      (∀ c ∈ pre, b.active_connections < c.active_connections) := by
  cases hh : pool.healthy_backends with
  | nil => exact absurd hh hne
  | cons m rest =>
      obtain ⟨pre, post, hsplit, hmin, hstrict⟩ := leastAux_spec rest m
      refine ⟨leastAux m rest, pre, post, ?_, ?_, ?_, hstrict⟩
      · simp only [select_backend, hh, List.isEmpty_cons, Bool.false_eq_true,
          if_false, select_least_connections, List.foldl_cons]
        exact select_least_connections_foldl rest m
      · exact hsplit
      · intro c hc
        exact hmin c hc

/-- A concrete two-backend healthy pool with distinct connection counts. -/
def poolLC : BackendPool :=
  { backends :=
      [{ config := { host := "X", port := 9000 }
         healthy := true
         active_connections := 2
         consecutive_failures := 0
         consecutive_successes := 0
         cooldown_until_ms := 0 },
       { config := { host := "Y", port := 9100 }
         healthy := true
         active_connections := 1
         consecutive_failures := 0
         consecutive_successes := 0
         cooldown_until_ms := 0 }] }

/-- Witness for C10 on the concrete pool: least-connections selection
returns some minimal backend there. -/
theorem select_least_connections_picks_min_witness :
    ∃ b pre post,
      (select_backend .LeastConnections poolLC 0).1 = some b ∧
      poolLC.healthy_backends = pre ++ b :: post ∧
      (∀ c ∈ poolLC.healthy_backends, b.active_connections ≤ c.active_connections) ∧
      (∀ c ∈ pre, b.active_connections < c.active_connections) :=
  select_least_connections_picks_min poolLC 0 (by decide)

/-- Modelled from the spec: `BackendErrorKind` is referenced by
src/protection.rs and src/proxy.rs as `crate::backend_pool::BackendErrorKind`
but its declaration is absent from src/backend_pool.rs; the spec (§3, §4.3)
gives the three error kinds `{Timeout, ConnectionRefused, Other}`. -/
inductive BackendErrorKind where
  | Timeout : BackendErrorKind
  | ConnectionRefused : BackendErrorKind
  | Other : BackendErrorKind
deriving DecidableEq

/-- Process-wide protection mode, from `ProtectionMode` in src/protection.rs.
The atomics become plain fields; `now_unix_ms()` becomes an explicit `now`
argument (milliseconds). -/
structure ProtectionMode where
  enabled : Bool
  timeout_refused_window_count : Nat
  window_started_ms : Nat
  stable_success_count : Nat
  reason_code : Nat
  threshold : Nat
  window_ms : Nat
  stable_recoveries_required : Nat
deriving DecidableEq

/-- `REASON_NONE` in src/protection.rs. -/
def REASON_NONE : Nat := 0

/-- `REASON_TIMEOUT_REFUSED_STORM` in src/protection.rs. -/
def REASON_TIMEOUT_REFUSED_STORM : Nat := 1

/-- `REASON_ALL_BACKENDS_UNAVAILABLE` in src/protection.rs. -/
def REASON_ALL_BACKENDS_UNAVAILABLE : Nat := 2

/-- `ProtectionMode::new(threshold, window_ms, stable_recoveries_required)`;
the window start is initialised to `now_unix_ms()`, passed here as `now`. -/
def ProtectionMode.new (threshold window_ms stable_recoveries_required now : Nat) :
    ProtectionMode :=
  { enabled := false
    timeout_refused_window_count := 0
    window_started_ms := now
    stable_success_count := 0
    reason_code := REASON_NONE
    threshold := threshold
    window_ms := window_ms
    stable_recoveries_required := stable_recoveries_required }

/-- `ProtectionMode::enable`: store the reason code, swap `enabled` to true,
return the previous value negated (true iff this call flipped it on). -/
def ProtectionMode.enable (s : ProtectionMode) (reason_code : Nat) :
    ProtectionMode × Bool :=
  ({ s with reason_code := reason_code, enabled := true }, !s.enabled)

/-- `ProtectionMode::disable`: clear everything and restart the window at
`now_unix_ms()` (the explicit `now`). -/
def ProtectionMode.disable (s : ProtectionMode) (now : Nat) : ProtectionMode :=
  { s with
    enabled := false
    reason_code := REASON_NONE
    timeout_refused_window_count := 0
    window_started_ms := now
    stable_success_count := 0 }

/-- `ProtectionMode::record_failure(kind)` at wall-clock `now`:
only `Timeout`/`ConnectionRefused` touch the sliding window.  The window is
reset when `now.saturating_sub(window_started_ms) > window_ms` (Nat
subtraction is saturating); `storm_count = fetch_add(1) + 1` wraps at the
`u32` modulus; any storm-kind failure zeroes `stable_success_count`; when
`storm_count >= threshold` the mode is enabled with the storm reason and the
call reports whether it caused the disabled-to-enabled transition.  Other
kinds only zero `stable_success_count` and return false. -/
def ProtectionMode.record_failure (s : ProtectionMode) (kind : BackendErrorKind)
    (now : Nat) : ProtectionMode × Bool :=
  if kind = .Timeout ∨ kind = .ConnectionRefused then
    let s :=
      if now - s.window_started_ms > s.window_ms then
        { s with window_started_ms := now, timeout_refused_window_count := 0 }
      else s
    let storm_count := (s.timeout_refused_window_count + 1) % U32
    let s := { s with
      timeout_refused_window_count := storm_count
      stable_success_count := 0 }
    if storm_count ≥ s.threshold then s.enable REASON_TIMEOUT_REFUSED_STORM
    else (s, false)
  else
    ({ s with stable_success_count := 0 }, false)

/-- `ProtectionMode::record_global_unavailable`: zero the stable-success
counter and enable unconditionally with the all-backends-unavailable reason. -/
def ProtectionMode.record_global_unavailable (s : ProtectionMode) :
    ProtectionMode × Bool :=
  ProtectionMode.enable { s with stable_success_count := 0 }
    REASON_ALL_BACKENDS_UNAVAILABLE

/-- `ProtectionMode::record_success` at wall-clock `now`: a no-op returning
false while disabled; otherwise `stable = fetch_add(1) + 1` (wrapping), and
on reaching `stable_recoveries_required` the mode is disabled (which resets
all counters) and the call returns true. -/
def ProtectionMode.record_success (s : ProtectionMode) (now : Nat) :
    ProtectionMode × Bool :=
  if s.enabled = false then (s, false)
  else
    let stable := (s.stable_success_count + 1) % U32
    if stable ≥ s.stable_recoveries_required then (s.disable now, true)
    else ({ s with stable_success_count := stable }, false)

/-- `reason_label` in src/protection.rs. -/
def reason_label (code : Nat) : Option String :=
  if code = REASON_TIMEOUT_REFUSED_STORM then some "timeout_or_refused_storm"
  else if code = REASON_ALL_BACKENDS_UNAVAILABLE then some "all_backends_unavailable"
  else none

/-- C4: `record_failure` counts only `Timeout`/`ConnectionRefused` in the
sliding window (an `Other` failure leaves the window untouched and never
enables); the window resets when `now - window_start > window_ms`; inside
the window the mode becomes enabled exactly when the incremented in-window
count reaches `trigger_threshold` (with reason `timeout_or_refused_storm`);
the call returns true iff it transitions the mode from disabled to enabled;
and concretely, with `trigger_threshold = 2`, `window_ms = 60000` and
`stable_recoveries_required = 2`, a `Timeout` then a `ConnectionRefused`
within the window enable the mode with reason "timeout_or_refused_storm",
and two subsequent `record_success` calls disable it again. -/
theorem record_failure_storm_spec :
    (∀ (s : ProtectionMode) (now : Nat),
      (s.record_failure .Other now).1.timeout_refused_window_count =
        s.timeout_refused_window_count ∧
      (s.record_failure .Other now).1.window_started_ms = s.window_started_ms ∧
      (s.record_failure .Other now).1.enabled = s.enabled ∧
      (s.record_failure .Other now).2 = false) ∧
    (∀ (s : ProtectionMode) (kind : BackendErrorKind) (now : Nat),
      kind ≠ .Other → now - s.window_started_ms > s.window_ms →
      (s.record_failure kind now).1.window_started_ms = now ∧
      (s.record_failure kind now).1.timeout_refused_window_count = 1) ∧
    (∀ (s : ProtectionMode) (kind : BackendErrorKind) (now : Nat),
      (s.record_failure kind now).2 = true ↔
        s.enabled = false ∧ (s.record_failure kind now).1.enabled = true) ∧
    (∀ (s : ProtectionMode) (kind : BackendErrorKind) (now : Nat),
      kind ≠ .Other → ¬ now - s.window_started_ms > s.window_ms →
      ((s.record_failure kind now).1.enabled = true ↔
        ((s.timeout_refused_window_count + 1) % U32 ≥ s.threshold ∨ s.enabled = true)) ∧
      ((s.timeout_refused_window_count + 1) % U32 ≥ s.threshold →
        (s.record_failure kind now).1.reason_code = REASON_TIMEOUT_REFUSED_STORM)) ∧
    (let s0 := ProtectionMode.new 2 60000 2 0
     let r1 := s0.record_failure .Timeout 1000
     let r2 := r1.1.record_failure .ConnectionRefused 2000
     let r3 := r2.1.record_success 3000
     let r4 := r3.1.record_success 4000
     r1.1.enabled = false ∧ r1.2 = false ∧
     r2.1.enabled = true ∧ r2.2 = true ∧
     reason_label r2.1.reason_code = some "timeout_or_refused_storm" ∧
     r3.1.enabled = true ∧ r3.2 = false ∧
     r4.1.enabled = false ∧ r4.2 = true) := by
  refine ⟨?_, ?_, ?_, ?_, by decide⟩
  · intro s now
    simp [ProtectionMode.record_failure]
  · intro s kind now hk hwin
    have hstorm : kind = .Timeout ∨ kind = .ConnectionRefused := by
      cases kind <;> simp_all
    simp only [ProtectionMode.record_failure, if_pos hstorm, if_pos hwin,
      ProtectionMode.enable]
    have h1 : (0 + 1) % U32 = 1 := by norm_num [U32]
    split <;> simp [h1]
  · intro s kind now
    by_cases hstorm : kind = .Timeout ∨ kind = .ConnectionRefused
    · simp only [ProtectionMode.record_failure, if_pos hstorm, ProtectionMode.enable]
      split <;> split <;> cases hs : s.enabled <;> simp_all
    · simp only [ProtectionMode.record_failure, if_neg hstorm]
      cases hs : s.enabled <;> simp_all
  · intro s kind now hk hwin
    have hstorm : kind = .Timeout ∨ kind = .ConnectionRefused := by
      cases kind <;> simp_all
    simp only [ProtectionMode.record_failure, if_pos hstorm, if_neg hwin,
      ProtectionMode.enable]
    constructor
    · split <;> rename_i hthr <;> simp_all
    · intro hge
      split <;> rename_i hthr <;> simp_all

/-- Witness for the window-reset part of C4: at `now = 70000`, more than
`window_ms = 60000` past the window start 0, a `Timeout` failure restarts
the window at 70000 with in-window count 1. -/
theorem record_failure_storm_spec_witness :
    ((ProtectionMode.new 2 60000 2 0).record_failure .Timeout
        70000).1.window_started_ms = 70000 ∧
    ((ProtectionMode.new 2 60000 2 0).record_failure .Timeout
        70000).1.timeout_refused_window_count = 1 :=
  record_failure_storm_spec.2.1 (ProtectionMode.new 2 60000 2 0) .Timeout 70000
    (by decide) (by decide)

/-- `AppState::try_acquire_connection(max_concurrent_connections)` from
src/state.rs, acting on the counter behind the `RwLock`: refuse and leave
the counter unchanged at or above the limit, otherwise increment and accept.
The pair is (new counter value, return value). -/
def try_acquire_connection (max_concurrent_connections active : Nat) : Nat × Bool :=
  if active ≥ max_concurrent_connections then (active, false)
  else (active + 1, true)

/-- `AppState::release_connection` from src/state.rs: decrement the counter,
but only when it is strictly positive. -/
def release_connection (active : Nat) : Nat :=
  if active > 0 then active - 1 else active

/-- The two operations on the global active-connection counter. -/
inductive ConnOp where
  | acquire : ConnOp
  | release : ConnOp
deriving DecidableEq

/-- Apply one connection-slot operation under a fixed limit. -/
def applyConnOp (max_concurrent_connections active : Nat) : ConnOp → Nat
  | .acquire => (try_acquire_connection max_concurrent_connections active).1
  | .release => release_connection active

/-- Any counter at or below the limit stays at or below it under any
sequence of acquire/release operations. -/
lemma connOp_foldl_le (max_concurrent_connections : Nat) (ops : List ConnOp) :
    ∀ active : Nat, active ≤ max_concurrent_connections →
      ops.foldl (applyConnOp max_concurrent_connections) active ≤
        max_concurrent_connections := by
  induction ops with
  | nil => intro active h; exact h
  | cons op rest ih =>
      intro active h
      rw [List.foldl_cons]
      apply ih
      cases op with
      | acquire =>
          simp only [applyConnOp, try_acquire_connection]
          split
          · exact h
          · rename_i hlt
            exact Nat.lt_of_not_le hlt
      | release =>
          simp only [applyConnOp, release_connection]
          split
          · exact Nat.le_trans (Nat.sub_le _ _) h
          · exact h

/-- C6: under any sequence of `try_acquire_connection` (with a fixed limit)
and `release_connection` calls starting from 0, the global active-connection
counter never exceeds the limit (and, being a `Nat`, never drops below 0);
`try_acquire_connection` increments and returns true exactly when the
counter is strictly below the limit and otherwise returns false leaving the
counter unchanged; `release_connection` decrements by one yet never below
zero. -/
theorem connection_counter_bounded :
    (∀ (max_concurrent_connections : Nat) (ops : List ConnOp),
      ops.foldl (applyConnOp max_concurrent_connections) 0 ≤
        max_concurrent_connections) ∧
    (∀ max_concurrent_connections active : Nat,
      active < max_concurrent_connections →
      try_acquire_connection max_concurrent_connections active =
        (active + 1, true)) ∧
    (∀ max_concurrent_connections active : Nat,
      active ≥ max_concurrent_connections →
      try_acquire_connection max_concurrent_connections active = (active, false)) ∧
    (∀ active : Nat, release_connection (active + 1) = active) ∧
    release_connection 0 = 0 := by
  refine ⟨?_, ?_, ?_, ?_, rfl⟩
  · intro max_concurrent_connections ops
    exact connOp_foldl_le max_concurrent_connections ops 0
      (Nat.zero_le max_concurrent_connections)
  · intro mx active h
    simp [try_acquire_connection, Nat.not_le_of_lt h, Nat.not_le.mpr h]
  · intro mx active h
    simp [try_acquire_connection, h]
  · intro active
    simp [release_connection]

/-- Witness for C6 at a concrete counter value below a concrete limit. -/
theorem connection_counter_bounded_witness :
    try_acquire_connection 2 1 = (1 + 1, true) :=
  connection_counter_bounded.2.1 2 1 (by decide)

/-- `OverloadPolicy` from src/config.rs. -/
inductive OverloadPolicy where
  | Reject : OverloadPolicy
deriving DecidableEq

/-- `RuntimeTuning` from src/config.rs (`u64`/`u32`/`usize` fields as `Nat`). -/
structure RuntimeTuning where
  health_check_interval_ms : Nat
  health_check_timeout_ms : Nat
  health_check_fail_threshold : Nat
  health_check_success_threshold : Nat
  backend_connect_timeout_ms : Nat
  failover_backoff_initial_ms : Nat
  failover_backoff_max_ms : Nat
  backend_cooldown_ms : Nat
  protection_trigger_threshold : Nat
  protection_window_ms : Nat
  protection_stable_success_threshold : Nat
  max_concurrent_connections : Nat
  connection_idle_timeout_ms : Nat
  overload_policy : OverloadPolicy
  tcp_backlog : Option Nat
deriving DecidableEq

/-- `Config` from src/config.rs. -/
structure Config where
  port : Nat
  method : BalanceMethod
  log_level : String
  bind_address : String
  runtime : RuntimeTuning
  backends : List BackendConfig
deriving DecidableEq

/-- The blank-address check of `Config::validate`:
`self.bind_address.trim().is_empty()` in the source holds exactly when every
character of the string is whitespace (trimming leading and trailing
whitespace leaves the empty string iff there is nothing else), which is how
it is rendered here, with `Char.isWhitespace` standing in for Rust's
`char::is_whitespace`. -/
def isBlank (s : String) : Bool :=
  s.data.all fun c => c.isWhitespace

/-- The `format!("{}:{}", host, port)` key the duplicate check hashes on. -/
def backendKey (b : BackendConfig) : String :=
  b.host ++ ":" ++ toString b.port

/-- The duplicate-detection loop of `Config::validate`: walk the backend
list, remembering the keys seen so far (the `HashSet` of the source as a
list with membership), and report the first key seen twice. -/
def findDuplicate : List String → List BackendConfig → Option String
  | _, [] => none
  | seen, b :: rest =>
      let key := backendKey b
      if key ∈ seen then some key else findDuplicate (key :: seen) rest

/-- `Config::validate` from src/config.rs (lines 426-499), with each `bail!`
as an `Except.error` carrying the source message, in source order.  Note
that `backend_cooldown_ms` has no check. -/
def Config.validate (c : Config) : Except String Unit :=
  if c.backends.isEmpty then .error "At least one backend is required"
  else
    match findDuplicate [] c.backends with
    | some key => .error ("Duplicate backend configuration: " ++ key)
    | none =>
      if c.port = 0 then .error "Port cannot be 0"
      else if isBlank c.bind_address then .error "Bind address cannot be empty"
      else if c.runtime.health_check_interval_ms = 0 then
        .error "health_check_interval_ms must be greater than 0"
      else if c.runtime.health_check_timeout_ms = 0 then
        .error "health_check_timeout_ms must be greater than 0"
      else if c.runtime.health_check_fail_threshold = 0 then
        .error "health_check_fail_threshold must be greater than 0"
      else if c.runtime.health_check_success_threshold = 0 then
        .error "health_check_success_threshold must be greater than 0"
      else if c.runtime.backend_connect_timeout_ms = 0 then
        .error "backend_connect_timeout_ms must be greater than 0"
      else if c.runtime.failover_backoff_initial_ms = 0 then
        .error "failover_backoff_initial_ms must be greater than 0"
      else if c.runtime.failover_backoff_max_ms < c.runtime.failover_backoff_initial_ms then
        .error "failover_backoff_max_ms must be >= failover_backoff_initial_ms"
      else if c.runtime.protection_trigger_threshold = 0 then
        .error "protection_trigger_threshold must be greater than 0"
      else if c.runtime.protection_window_ms = 0 then
        .error "protection_window_ms must be greater than 0"
      else if c.runtime.protection_stable_success_threshold = 0 then
        .error "protection_stable_success_threshold must be greater than 0"
      else if c.runtime.max_concurrent_connections = 0 then
        .error "max_concurrent_connections must be greater than 0"
      else if c.runtime.connection_idle_timeout_ms = 0 then
        .error "connection_idle_timeout_ms must be greater than 0"
      else .ok ()

/-- The duplicate scan succeeds exactly when the keys are pairwise distinct
and none of them was already seen. -/
lemma findDuplicate_eq_none_iff (l : List BackendConfig) :
    ∀ seen : List String,
      findDuplicate seen l = none ↔
        ((l.map backendKey).Nodup ∧ ∀ k ∈ l.map backendKey, k ∉ seen) := by
  induction l with
  | nil => intro seen; simp [findDuplicate]
  | cons b rest ih =>
      intro seen
      simp only [findDuplicate, List.map_cons]
      by_cases h : backendKey b ∈ seen
      · simp only [if_pos h]
        constructor
        · intro habs; cases habs
        · rintro ⟨-, hall⟩
          exact absurd h (hall (backendKey b) (List.mem_cons_self _ _))
      · rw [if_neg h, ih (backendKey b :: seen)]
        simp only [List.nodup_cons, List.mem_cons, not_or]
        constructor
        · rintro ⟨hn, hall⟩
          refine ⟨⟨?_, hn⟩, ?_⟩
          · intro hkey
            exact (hall _ hkey).1 rfl
          · intro k hk
            rcases hk with rfl | hk
            · exact h
            · exact (hall k hk).2
        · rintro ⟨⟨hkey, hn⟩, hall⟩
          refine ⟨hn, ?_⟩
          intro k hk
          refine ⟨?_, hall k (Or.inr hk)⟩
          intro hkk
          subst hkk
          exact hkey hk


/-- Peeling one validation check: the chain succeeds iff the current check
passes and the rest of the chain succeeds. -/
lemma if_error_ok_iff {p : Prop} [Decidable p] (e : String) (rest : Except String Unit) :
    (if p then Except.error e else rest) = Except.ok () ↔ (¬ p ∧ rest = Except.ok ()) := by
  split
  · rename_i hp
    constructor
    · intro h; cases h
    · rintro ⟨hnp, -⟩; exact absurd hp hnp
  · rename_i hp
    constructor
    · intro h; exact ⟨hp, h⟩
    · rintro ⟨-, h⟩; exact h

/-- C7 amended: `Config::validate` returns `Ok` exactly when the backend
list is non-empty with pairwise-distinct `(host, port)` keys, the listen
port is non-zero, the bind address is not blank, every runtime field the
code checks is non-zero, and `failover_backoff_max_ms` is at least
`failover_backoff_initial_ms`; `backend_cooldown_ms` is NOT among the
checked fields, so a configuration is accepted regardless of its value. -/
theorem validate_ok_iff (c : Config) :
    c.validate = Except.ok () ↔
      (c.backends ≠ [] ∧
       (c.backends.map backendKey).Nodup ∧
       c.port ≠ 0 ∧
       isBlank c.bind_address = false ∧
       c.runtime.health_check_interval_ms ≠ 0 ∧
       c.runtime.health_check_timeout_ms ≠ 0 ∧
       c.runtime.health_check_fail_threshold ≠ 0 ∧
       c.runtime.health_check_success_threshold ≠ 0 ∧
       c.runtime.backend_connect_timeout_ms ≠ 0 ∧
       c.runtime.failover_backoff_initial_ms ≠ 0 ∧
       c.runtime.failover_backoff_initial_ms ≤ c.runtime.failover_backoff_max_ms ∧
       c.runtime.protection_trigger_threshold ≠ 0 ∧
       c.runtime.protection_window_ms ≠ 0 ∧
       c.runtime.protection_stable_success_threshold ≠ 0 ∧
       c.runtime.max_concurrent_connections ≠ 0 ∧
       c.runtime.connection_idle_timeout_ms ≠ 0) := by
  unfold Config.validate
  by_cases he : c.backends.isEmpty
  · have hnil : c.backends = [] := List.isEmpty_iff.mp he
    rw [if_pos he]
    simp [hnil]
  · have hne : c.backends ≠ [] := fun h => he (by simp [h])
    rw [if_neg he]
    cases hd : findDuplicate [] c.backends with
    | some k =>
        have hnd : ¬ (c.backends.map backendKey).Nodup := by
          intro hn
          have hnone := (findDuplicate_eq_none_iff c.backends []).mpr ⟨hn, by simp⟩
          rw [hd] at hnone
          cases hnone
        constructor
        · intro h; cases h
        · rintro ⟨-, hn, -⟩; exact absurd hn hnd
    | none =>
        have hnd : (c.backends.map backendKey).Nodup :=
          ((findDuplicate_eq_none_iff c.backends []).mp hd).1
        rw [if_error_ok_iff, if_error_ok_iff, if_error_ok_iff, if_error_ok_iff,
          if_error_ok_iff, if_error_ok_iff, if_error_ok_iff, if_error_ok_iff,
          if_error_ok_iff, if_error_ok_iff, if_error_ok_iff, if_error_ok_iff,
          if_error_ok_iff, if_error_ok_iff]
        simp only [hne, hnd, ne_eq, Bool.not_eq_true, Nat.not_lt, not_false_iff,
          true_and, and_true]

/-- A configuration that satisfies every other §6 constraint but has
`backend_cooldown_ms = 0`. -/
def configCooldownZero : Config :=
  { port := 9295
    method := .RoundRobin
    log_level := "info"
    bind_address := "0.0.0.0"
    runtime :=
      { health_check_interval_ms := 1000
        health_check_timeout_ms := 1200
        health_check_fail_threshold := 3
        health_check_success_threshold := 2
        backend_connect_timeout_ms := 1200
        failover_backoff_initial_ms := 500
        failover_backoff_max_ms := 10000
        backend_cooldown_ms := 0
        protection_trigger_threshold := 14
        protection_window_ms := 30000
        protection_stable_success_threshold := 16
        max_concurrent_connections := 12000
        connection_idle_timeout_ms := 120000
        overload_policy := .Reject
        tcp_backlog := none }
    backends := [{ host := "127.0.0.1", port := 9000 }] }

/-- C7 counterexample: `Config::validate` accepts a configuration whose
`backend_cooldown_ms` is zero — the code never checks that field, although
the claim requires an error for every must-be-positive runtime field set
to zero. -/
theorem validate_accepts_zero_cooldown :
    configCooldownZero.runtime.backend_cooldown_ms = 0 ∧
    configCooldownZero.validate = Except.ok () := by
  exact ⟨rfl, rfl⟩

/-- Witness for C7 amended, instantiating the characterisation at the
concrete accepted configuration. -/
theorem validate_ok_iff_witness :
    configCooldownZero.validate = Except.ok () :=
  (validate_ok_iff configCooldownZero).mpr (by decide)
